import Mathlib

/-!
Verification development for the pulsepoint consultation pipeline.

The Python sources are embedded shallowly:
* Python `str` values that undergo `.lower()` / `.upper()` / substring tests
  are modelled as lists of Unicode code points (`PyStr := List Nat`); the
  case maps are the ASCII case maps, which agree with Python on the ASCII
  inputs the program manipulates.
* Python dicts used as ordered key/value tables are modelled as association
  lists in insertion order.
* Python floats in this code base carry exact decimal values, so they are
  modelled as rationals; `round(x, 3)` is modelled as exact round-half-to-even
  to a multiple of 1/1000, and `int(x)` as truncation toward zero.
* LLM invocations are modelled as explicit outcome parameters
  (`Except String String`): the embedding of `council_debate` takes the
  outcome of each of the three expert calls as an argument.
-/

namespace Pulsepoint

/-! ### Python string model -/

/-- A Python `str`, as a list of Unicode code points. -/
abbrev PyStr := List Nat

/-- Inject a Lean string literal into the model. -/
def str (s : String) : PyStr := s.toList.map Char.toNat

/-- ASCII case map used by Python `str.lower` on the ASCII range. -/
def lowerCp (n : Nat) : Nat := if 65 ≤ n ∧ n ≤ 90 then n + 32 else n

/-- ASCII case map used by Python `str.upper` on the ASCII range. -/
def upperCp (n : Nat) : Nat := if 97 ≤ n ∧ n ≤ 122 then n - 32 else n

/-- Python `s.lower()`. -/
def lowerStr (s : PyStr) : PyStr := s.map lowerCp

/-- Python `s.upper()`. -/
def upperStr (s : PyStr) : PyStr := s.map upperCp

/-- Python `needle in hay` (contiguous substring test). -/
def hasSub (needle : PyStr) : PyStr → Bool
  | [] => needle.isEmpty
  | c :: t => needle.isPrefixOf (c :: t) || hasSub needle t

theorem hasSub_iff (needle hay : PyStr) : hasSub needle hay = true ↔ needle <:+: hay := by
  induction hay with
  | nil =>
    simp [hasSub, List.isEmpty_iff]
  | cons c t ih =>
    simp [hasSub, ih, List.infix_cons_iff]

theorem lowerCp_upperCp (n : Nat) : lowerCp (upperCp n) = lowerCp n := by
  unfold lowerCp upperCp
  split_ifs <;> omega

/-- If `needle` occurs in `s.upper()`, then `needle.lower()` occurs in `s.lower()`. -/
theorem hasSub_lower_of_hasSub_upper (needle s : PyStr)
    (h : hasSub needle (upperStr s) = true) :
    hasSub (needle.map lowerCp) (lowerStr s) = true := by
  rw [hasSub_iff] at h ⊢
  have h2 := List.IsInfix.map lowerCp h
  rw [upperStr, List.map_map] at h2
  have : s.map (lowerCp ∘ upperCp) = s.map lowerCp := by
    apply List.map_congr_left
    intro a _
    exact lowerCp_upperCp a
  rw [this] at h2
  exact h2

/-! ### Router (src/council.py, `MedicalCouncil.orchestrator`) -/

/-- `config.HIGH_STAKES_KEYWORDS` from src/config.py. -/
def HIGH_STAKES_KEYWORDS : List PyStr :=
  [str "chest pain", str "can\x27t breathe", str "unconscious", str "severe bleeding",
   str "stroke", str "heart attack", str "anaphylaxis", str "choking", str "seizure"]

/-- `any(keyword in text.lower() for keyword in config.HIGH_STAKES_KEYWORDS)`. -/
def isHighStakes (text : PyStr) : Bool :=
  HIGH_STAKES_KEYWORDS.any (fun k => hasSub k (lowerStr text))

/-- The routing decision computed by `MedicalCouncil.orchestrator`
(src/council.py lines 97-104): `state["route"]` after the node runs. -/
def orchestratorRoute (text : PyStr) (hasImage : Bool) : String :=
  if hasImage || isHighStakes text then "council" else "fast"

/-- `route_decision` from `MedicalCouncil._build_graph` (src/council.py lines 60-66):
maps the route field to the next graph node. -/
def routeDecision (route : String) : String :=
  if route = "fast" then "fast_path"
  else if route = "visual" then "visual_path"
  else "council_debate"

/-! ### Guardrails (src/guardrails.py) -/

/-- Decimal rendering of a natural number (for the f-string interpolations in
guardrail messages). -/
def natStrAux : Nat → Nat → PyStr
  | 0, _ => []
  | fuel + 1, n => if n < 10 then [48 + n] else natStrAux fuel (n / 10) ++ [48 + n % 10]

def natStr (n : Nat) : PyStr := natStrAux (n + 1) n

/-- ASCII whitespace recognised by Python `str.split()`. -/
def isPySpace (c : Nat) : Bool := c = 32 || c = 9 || c = 10 || c = 13 || c = 11 || c = 12

def wordCountAux : PyStr → Bool → Nat
  | [], _ => 0
  | c :: t, inWord =>
    if isPySpace c then wordCountAux t false
    else (if inWord then 0 else 1) + wordCountAux t true

/-- Python `len(s.split())`: the number of maximal whitespace-free runs. -/
def wordCount (s : PyStr) : Nat := wordCountAux s false

/-- `check_emergency_keywords_routed` (src/guardrails.py lines 5-21). -/
def check_emergency_keywords_routed (patient_input : PyStr) (route : String) :
    Bool × PyStr :=
  if HIGH_STAKES_KEYWORDS.any (fun k => hasSub k (lowerStr patient_input)) = true
      ∧ route = "fast" then
    (true, str "WARNING: Emergency keywords detected but routed to fast path")
  else
    (true, str "Emergency routing check passed")

/-- `check_response_length` (src/guardrails.py lines 24-40). -/
def check_response_length (response : PyStr) (maxWords : Nat := 50) : Bool × PyStr :=
  if wordCount response > maxWords then
    (true, str "WARNING: Response exceeds limit (" ++ natStr (wordCount response) ++
      str " words > " ++ natStr maxWords ++ str " words for TTS)")
  else
    (true, str "Length check passed (" ++ natStr (wordCount response) ++ str "/" ++
      natStr maxWords ++ str " words)")

def URGENCY_LABELS : List PyStr := [str "LOW", str "MEDIUM", str "HIGH", str "EMERGENCY"]

/-- `check_urgency_present` (src/guardrails.py lines 43-59). -/
def check_urgency_present (response : PyStr) : Bool × PyStr :=
  if ¬ URGENCY_LABELS.any (fun l => hasSub l (upperStr response)) = true then
    (true, str "WARNING: Response missing urgency level")
  else
    (true, str "Urgency level present in response")

def ACTION_KEYWORDS : List PyStr :=
  [str "call", str "emergency", str "911", str "hospital", str "ambulance",
   str "immediately"]

/-- `check_medical_disclaimer_compliance` (src/guardrails.py lines 62-81). -/
def check_medical_disclaimer_compliance (response : PyStr) (route : String) :
    Bool × PyStr :=
  if hasSub (str "EMERGENCY") (upperStr response) = true then
    if ¬ ACTION_KEYWORDS.any (fun k => hasSub k (lowerStr response)) = true then
      (true, str "WARNING: Emergency urgency without immediate action directive")
    else
      (true, str "Disclaimer compliance check passed")
  else
    (true, str "Disclaimer compliance check passed")

structure GCheck where
  name : String
  passed : Bool
  message : PyStr
deriving DecidableEq

structure GuardrailResults where
  all_passed : Bool
  warnings : List (String × PyStr)
  checks : List GCheck
deriving DecidableEq

/-- The `for check_name, (passed, message) in checks` loop of
`run_all_guardrails` (src/guardrails.py lines 111-123). -/
def guardLoop : List (String × (Bool × PyStr)) → GuardrailResults → GuardrailResults
  | [], acc => acc
  | (name, pm) :: rest, acc =>
    guardLoop rest
      { acc with
        checks := acc.checks ++ [⟨name, pm.1, pm.2⟩],
        warnings := if hasSub (str "WARNING:") pm.2 = true
          then acc.warnings ++ [(name, pm.2)]
          else acc.warnings }

/-- `run_all_guardrails` (src/guardrails.py lines 84-125).  The `urgency`
argument is accepted but, as in the source, never consulted. -/
def run_all_guardrails (patient_input response : PyStr) (urgency route : String) :
    GuardrailResults :=
  guardLoop
    [("emergency_routing", check_emergency_keywords_routed patient_input route),
     ("response_length", check_response_length response),
     ("urgency_present", check_urgency_present response),
     ("disclaimer_compliance", check_medical_disclaimer_compliance response route)]
    { all_passed := true, warnings := [], checks := [] }

theorem guardLoop_all_passed (l : List (String × (Bool × PyStr)))
    (acc : GuardrailResults) : (guardLoop l acc).all_passed = acc.all_passed := by
  induction l generalizing acc with
  | nil => rfl
  | cons hd tl ih => cases hd; simp [guardLoop, ih]

theorem guardLoop_checks (l : List (String × (Bool × PyStr))) (acc : GuardrailResults) :
    (guardLoop l acc).checks = acc.checks ++ l.map (fun e => ⟨e.1, e.2.1, e.2.2⟩) := by
  induction l generalizing acc with
  | nil => simp [guardLoop]
  | cons hd tl ih => cases hd; simp [guardLoop, ih]

theorem check_emergency_keywords_routed_fst (patient_input : PyStr) (route : String) :
    (check_emergency_keywords_routed patient_input route).1 = true := by
  unfold check_emergency_keywords_routed
  split_ifs <;> rfl

theorem check_response_length_fst (response : PyStr) (maxWords : Nat) :
    (check_response_length response maxWords).1 = true := by
  unfold check_response_length
  split_ifs <;> rfl

theorem check_urgency_present_fst (response : PyStr) :
    (check_urgency_present response).1 = true := by
  unfold check_urgency_present
  split_ifs <;> rfl

theorem check_medical_disclaimer_compliance_fst (response : PyStr) (route : String) :
    (check_medical_disclaimer_compliance response route).1 = true := by
  unfold check_medical_disclaimer_compliance
  split_ifs <;> rfl

/-- C3 counterexample: on a concrete input whose check conditions do fail
(high-stakes text routed to `fast`, response with no urgency label), the
guardrail evaluator still reports `all_passed = true` with every check
passed — the failures surface as warnings, and no blocking rejection or
first-failure abort occurs. -/
theorem c3_no_input_fails_guardrails :
    (run_all_guardrails (str "chest pain") (str "rest at home") "LOW" "fast").all_passed
      = true
    ∧ (run_all_guardrails (str "chest pain") (str "rest at home") "LOW" "fast").checks.all
        (fun c => c.passed) = true
    ∧ (run_all_guardrails (str "chest pain") (str "rest at home") "LOW" "fast").warnings
      ≠ [] := by
  refine ⟨by decide, by decide, by decide⟩

/-- C3 amended: the committed guardrail operating mode is advisory
(non-blocking): for every input, all four checks are evaluated in order (no
short-circuit), every check reports `passed = true`, and `all_passed` is true;
failing conditions surface only in the warnings list, as witnessed by a
high-stakes input routed to `fast` whose result still has `all_passed = true`
with a non-empty warnings list. -/
theorem c3_guardrails_advisory :
    (∀ (patient_input response : PyStr) (urgency route : String),
      (run_all_guardrails patient_input response urgency route).all_passed = true
      ∧ (run_all_guardrails patient_input response urgency route).checks.map GCheck.name =
          ["emergency_routing", "response_length", "urgency_present",
           "disclaimer_compliance"]
      ∧ (run_all_guardrails patient_input response urgency route).checks.all
          (fun c => c.passed) = true)
    ∧ (run_all_guardrails (str "chest pain") (str "ok") "LOW" "fast").all_passed = true
    ∧ (run_all_guardrails (str "chest pain") (str "ok") "LOW" "fast").warnings ≠ [] := by
  refine ⟨?_, by decide, by decide⟩
  intro pi r u ro
  refine ⟨?_, ?_, ?_⟩
  · unfold run_all_guardrails; rw [guardLoop_all_passed]
  · unfold run_all_guardrails; rw [guardLoop_checks]; rfl
  · unfold run_all_guardrails
    rw [guardLoop_checks]
    simp only [List.nil_append, List.map_cons, List.map_nil, List.all_cons,
      List.all_nil]
    rw [check_emergency_keywords_routed_fst, check_response_length_fst,
      check_urgency_present_fst, check_medical_disclaimer_compliance_fst]
    rfl

/-- C9: the escalation-action check can never produce its warning.  The check
keys on the literal text "EMERGENCY" occurring in the response (not on the
assigned urgency), and the word "emergency" is itself in the action-keyword
vocabulary, so whenever the emergency branch is entered an action keyword is
necessarily present: for every input the check returns the passing result.
In particular, for the assigned-urgency-EMERGENCY input whose response
"Take aspirin and rest" lacks any action directive, no warning is produced,
contradicting the specified behaviour. -/
theorem c9_escalation_warning_unreachable :
    (∀ (response : PyStr) (route : String),
      check_medical_disclaimer_compliance response route =
        (true, str "Disclaimer compliance check passed"))
    ∧ check_medical_disclaimer_compliance (str "Take aspirin and rest") "council" =
        (true, str "Disclaimer compliance check passed")
    ∧ (run_all_guardrails (str "I feel dizzy") (str "Take aspirin and rest")
        "EMERGENCY" "council").warnings.all
        (fun w => w.1 ≠ "disclaimer_compliance") = true := by
  refine ⟨?_, by decide, by decide⟩
  intro response route
  unfold check_medical_disclaimer_compliance
  by_cases h : hasSub (str "EMERGENCY") (upperStr response) = true
  · have hlow := hasSub_lower_of_hasSub_upper _ _ h
    have hemer : (str "EMERGENCY").map lowerCp = str "emergency" := by decide
    rw [hemer] at hlow
    have hany : ACTION_KEYWORDS.any (fun k => hasSub k (lowerStr response)) = true := by
      rw [List.any_eq_true]
      exact ⟨str "emergency", by decide, hlow⟩
    simp [h, hany]
  · simp [h]

/-! ### Synthesizer (src/council.py, `MedicalCouncil.synthesize`, lines 440-451) -/

/-- One entry of `state["votes"]`: a dict that may carry `urgency`,
`confidence` and `model` keys (`synthesize` reads the first two with
`.get(key, default)`). -/
structure Vote where
  urgency : Option String
  confidence : Option ℚ
  model : Option String
deriving DecidableEq

/-- The `urgency_levels` dict of `synthesize` (src/council.py line 445). -/
def urgency_levels : List (String × Nat) :=
  [("LOW", 1), ("MEDIUM", 2), ("HIGH", 3), ("EMERGENCY", 4)]

/-- `urgency_levels.get(x, 2)`. -/
def urgencyLevel (u : String) : Nat := (urgency_levels.lookup u).getD 2

/-- `[v.get("urgency", "MEDIUM") for v in votes.values()]`. -/
def urgenciesOf (votes : List Vote) : List String :=
  votes.map (fun v => v.urgency.getD "MEDIUM")

/-- `[v.get("confidence", 0.5) for v in votes.values()]`. -/
def confidencesOf (votes : List Vote) : List ℚ :=
  votes.map (fun v => v.confidence.getD (1/2))

/-- Python `max(iterable, key=key)` given a first element and the rest:
keeps the current maximum and replaces it only on a strictly larger key,
so the first element with the maximal key wins. -/
def pyMaxKey (key : String → Nat) : String → List String → String
  | acc, [] => acc
  | acc, x :: rest => pyMaxKey key (if key x > key acc then x else acc) rest

/-- `max(urgencies, key=lambda x: urgency_levels.get(x, 2)) if urgencies
else "MEDIUM"` (src/council.py lines 446-447). -/
def synthesizeUrgency (votes : List Vote) : String :=
  match urgenciesOf votes with
  | [] => "MEDIUM"
  | u :: rest => pyMaxKey urgencyLevel u rest

/-- Python `sum` (a left fold starting from 0). -/
def pySum (l : List ℚ) : ℚ := l.foldl (· + ·) 0

/-- Round-half-to-even to an integer. -/
def roundHalfEven (x : ℚ) : Int :=
  if x - ⌊x⌋ < 1/2 then ⌊x⌋
  else if x - ⌊x⌋ > 1/2 then ⌊x⌋ + 1
  else if ⌊x⌋ % 2 = 0 then ⌊x⌋ else ⌊x⌋ + 1

/-- Python `round(x, 3)`: round to a multiple of 1/1000, ties to even. -/
def pyRound3 (x : ℚ) : ℚ := (roundHalfEven (x * 1000) : ℚ) / 1000

/-- `round(avg_confidence, 3)` where `avg_confidence = sum(confidences) /
len(confidences) if confidences else 0.5` (src/council.py lines 441-442 and
451): the value stored into `state["confidence"]`. -/
def synthesizeConfidence (votes : List Vote) : ℚ :=
  pyRound3 (if confidencesOf votes = [] then 1/2
    else pySum (confidencesOf votes) / (confidencesOf votes).length)

theorem pyMaxKey_mem (key : String → Nat) (a : String) (l : List String) :
    pyMaxKey key a l ∈ a :: l := by
  induction l generalizing a with
  | nil => simp [pyMaxKey]
  | cons x rest ih =>
    rw [pyMaxKey]
    by_cases hk : key x > key a
    · rw [if_pos hk]
      rcases List.mem_cons.1 (ih x) with h1 | h1
      · rw [h1]; simp
      · exact List.mem_cons.2 (Or.inr (List.mem_cons.2 (Or.inr h1)))
    · rw [if_neg hk]
      rcases List.mem_cons.1 (ih a) with h1 | h1
      · rw [h1]; simp
      · exact List.mem_cons.2 (Or.inr (List.mem_cons.2 (Or.inr h1)))

theorem pyMaxKey_ge (key : String → Nat) (a : String) (l : List String) :
    key a ≤ key (pyMaxKey key a l) ∧
    ∀ x ∈ l, key x ≤ key (pyMaxKey key a l) := by
  induction l generalizing a with
  | nil => simp [pyMaxKey]
  | cons x rest ih =>
    have h := ih (if key x > key a then x else a)
    rw [pyMaxKey]
    refine ⟨?_, ?_⟩
    · refine le_trans ?_ h.1
      by_cases hk : key x > key a
      · simp [hk]; omega
      · simp [hk]
    · intro y hy
      rcases List.mem_cons.1 hy with rfl | hy2
      · refine le_trans ?_ h.1
        by_cases hk : key y > key a
        · simp [hk]
        · simp [hk]; omega
      · exact h.2 y hy2

/-- C1: for every non-empty vote set whose urgencies are among the four
levels, the Synthesizer's final urgency is one of the opinions' urgencies, it
dominates every opinion's urgency in the order LOW < MEDIUM < HIGH <
EMERGENCY, it is the unique urgency value of maximal severity, and in
particular it is EMERGENCY as soon as any opinion voted EMERGENCY. -/
theorem c1_synthesize_max_urgency :
    ∀ votes : List Vote,
      votes ≠ [] →
      (∀ v ∈ votes, ∃ u, v.urgency = some u ∧
        (u = "LOW" ∨ u = "MEDIUM" ∨ u = "HIGH" ∨ u = "EMERGENCY")) →
      synthesizeUrgency votes ∈ urgenciesOf votes
      ∧ (∀ u ∈ urgenciesOf votes,
          urgencyLevel u ≤ urgencyLevel (synthesizeUrgency votes))
      ∧ (∀ u ∈ urgenciesOf votes,
          urgencyLevel u = urgencyLevel (synthesizeUrgency votes) →
          u = synthesizeUrgency votes)
      ∧ ((∃ v ∈ votes, v.urgency = some "EMERGENCY") →
          synthesizeUrgency votes = "EMERGENCY") := by
  intro votes hne hform
  have hfour : ∀ u ∈ urgenciesOf votes,
      u = "LOW" ∨ u = "MEDIUM" ∨ u = "HIGH" ∨ u = "EMERGENCY" := by
    intro u hu
    rcases List.mem_map.1 hu with ⟨v, hv, rfl⟩
    rcases hform v hv with ⟨u', hu', hcase⟩
    rw [hu']
    exact hcase
  obtain ⟨u0, rest, hur⟩ : ∃ u0 rest, urgenciesOf votes = u0 :: rest := by
    cases hv : votes with
    | nil => exact absurd hv hne
    | cons v vs => exact ⟨_, _, rfl⟩
  have hdef : synthesizeUrgency votes = pyMaxKey urgencyLevel u0 rest := by
    rw [synthesizeUrgency, hur]
  have hmem : synthesizeUrgency votes ∈ urgenciesOf votes := by
    rw [hdef, hur]
    exact pyMaxKey_mem urgencyLevel u0 rest
  have hge : ∀ u ∈ urgenciesOf votes,
      urgencyLevel u ≤ urgencyLevel (synthesizeUrgency votes) := by
    intro u hu
    rw [hdef]
    rw [hur] at hu
    rcases List.mem_cons.1 hu with rfl | hu2
    · exact (pyMaxKey_ge urgencyLevel u rest).1
    · exact (pyMaxKey_ge urgencyLevel u0 rest).2 u hu2
  refine ⟨hmem, hge, ?_, ?_⟩
  · intro u hu hlev
    rcases hfour u hu with rfl | rfl | rfl | rfl <;>
      rcases hfour _ hmem with h4 | h4 | h4 | h4 <;>
        rw [h4] at hlev ⊢ <;> first | rfl | (exfalso; revert hlev; decide)
  · rintro ⟨v, hv, hveq⟩
    have he : "EMERGENCY" ∈ urgenciesOf votes := by
      refine List.mem_map.2 ⟨v, hv, ?_⟩
      rw [hveq]
      rfl
    have h4 := hge _ he
    rcases hfour _ hmem with hm | hm | hm | hm <;> rw [hm] at h4 ⊢ <;>
      first | rfl | (exfalso; revert h4; decide)

/-- C1 witness: a concrete three-vote set containing an EMERGENCY vote
synthesizes to EMERGENCY. -/
theorem c1_witness :
    synthesizeUrgency
      [⟨some "LOW", some (17/20), some "GPT-4o"⟩,
       ⟨some "EMERGENCY", some (9/10), none⟩,
       ⟨some "MEDIUM", none, none⟩] = "EMERGENCY" := by
  have h := c1_synthesize_max_urgency
    [⟨some "LOW", some (17/20), some "GPT-4o"⟩,
     ⟨some "EMERGENCY", some (9/10), none⟩,
     ⟨some "MEDIUM", none, none⟩]
    (by simp)
    (by
      intro v hv
      fin_cases hv
      · exact ⟨"LOW", rfl, Or.inl rfl⟩
      · exact ⟨"EMERGENCY", rfl, Or.inr (Or.inr (Or.inr rfl))⟩
      · exact ⟨"MEDIUM", rfl, Or.inr (Or.inl rfl)⟩)
  exact h.2.2.2 ⟨⟨some "EMERGENCY", some (9/10), none⟩, by simp, rfl⟩

theorem pySum_aux (l : List ℚ) : ∀ a : ℚ, l.foldl (· + ·) a = a + l.sum := by
  induction l with
  | nil => intro a; simp
  | cons x t ih =>
    intro a
    rw [List.foldl_cons, ih, List.sum_cons]
    ring

theorem pySum_eq_sum (l : List ℚ) : pySum l = l.sum := by
  rw [pySum, pySum_aux]
  ring

theorem pyRound3_half : pyRound3 (1/2) = 1/2 := by
  have h5 : ((1 : ℚ)/2) * 1000 = 500 := by norm_num
  rw [pyRound3, h5, roundHalfEven]
  norm_num

/-- C6 counterexample: for a vote set with confidences 1, 0, 0 the arithmetic
mean is 1/3 but the Synthesizer's stored confidence is `round(1/3, 3)` =
0.333 ≠ 1/3: the final confidence is not the arithmetic mean. -/
theorem c6_confidence_not_exact_mean :
    pySum (confidencesOf [⟨some "HIGH", some 1, none⟩, ⟨some "HIGH", some 0, none⟩,
        ⟨some "HIGH", some 0, none⟩]) /
      (confidencesOf [⟨some "HIGH", some 1, none⟩, ⟨some "HIGH", some 0, none⟩,
        ⟨some "HIGH", some 0, none⟩]).length = 1/3
    ∧ synthesizeConfidence [⟨some "HIGH", some 1, none⟩, ⟨some "HIGH", some 0, none⟩,
        ⟨some "HIGH", some 0, none⟩] = 333/1000
    ∧ (333/1000 : ℚ) ≠ 1/3 := by
  refine ⟨by norm_num [confidencesOf, pySum], ?_, by norm_num⟩
  have hc : confidencesOf [⟨some "HIGH", some 1, none⟩, ⟨some "HIGH", some 0, none⟩,
      ⟨some "HIGH", some 0, none⟩] = [1, 0, 0] := rfl
  have hmean : pySum [1, 0, 0] / (([1, 0, 0] : List ℚ).length : ℚ) = 1/3 := by
    norm_num [pySum]
  have hfloor : ⌊((1 : ℚ)/3) * 1000⌋ = 333 := by
    rw [Int.floor_eq_iff]
    norm_num
  rw [synthesizeConfidence, hc, if_neg (by simp), hmean, pyRound3, roundHalfEven,
    hfloor, if_pos (by norm_num)]
  norm_num

/-- C6 amended: the Synthesizer's final confidence equals the arithmetic mean
of the opinions' confidence values rounded to three decimal places (Python
`round(x, 3)`, half to even); when no opinions carry a confidence value (or
there are no opinions at all) it is 0.5. -/
theorem c6_confidence_rounded_mean :
    (∀ votes : List Vote,
      synthesizeConfidence votes =
        pyRound3 (if votes = [] then 1/2
          else (confidencesOf votes).sum / (confidencesOf votes).length))
    ∧ (∀ votes : List Vote, votes ≠ [] → (∀ v ∈ votes, v.confidence = none) →
        synthesizeConfidence votes = 1/2)
    ∧ synthesizeConfidence [] = 1/2 := by
  have part1 : ∀ votes : List Vote,
      synthesizeConfidence votes =
        pyRound3 (if votes = [] then 1/2
          else (confidencesOf votes).sum / (confidencesOf votes).length) := by
    intro votes
    rw [synthesizeConfidence, pySum_eq_sum]
    congr 1
    exact if_congr (by rw [confidencesOf, List.map_eq_nil_iff]) rfl rfl
  refine ⟨part1, ?_, ?_⟩
  · intro votes hne hnone
    have hrep : confidencesOf votes = List.replicate votes.length (1/2) := by
      rw [confidencesOf]
      rw [List.map_congr_left (g := fun _ => (1/2 : ℚ))
        (by intro v hv; rw [hnone v hv]; rfl)]
      exact List.map_const' votes (1/2)
    have hlen : (votes.length : ℚ) ≠ 0 := by
      simpa using List.length_pos.2 hne |>.ne'
    rw [part1, if_neg hne, hrep, List.sum_replicate, List.length_replicate,
      nsmul_eq_mul]
    rw [mul_comm, mul_div_assoc, div_self hlen, mul_one]
    exact pyRound3_half
  · rw [part1, if_pos rfl]
    exact pyRound3_half

/-- C6 witness: two votes that both lack a confidence value synthesize to the
default confidence 0.5. -/
theorem c6_witness :
    synthesizeConfidence [⟨some "LOW", none, none⟩, ⟨some "HIGH", none, none⟩]
      = 1/2 :=
  c6_confidence_rounded_mean.2.1 _ (by simp)
    (by intro v hv; fin_cases hv <;> rfl)

/-! ### Expert Pool Executor (src/council.py, `MedicalCouncil.council_debate`,
lines 335-384)

Each of the three `model.invoke` calls is wrapped in `try/except`; the
embedding takes the outcome of each call as an `Except String String`
parameter (error message or response content). -/

structure CouncilOutput where
  responses : List (String × String)
  votes : List (String × Vote)
  failed_models : List String
deriving DecidableEq

/-- The aggregation and zero-success check of `council_debate`
(src/council.py lines 335-384): builds `responses`, `votes` and
`failed_models` from the three wrapped invocations, raises when no model
succeeded, and otherwise stores the partial results into the state. -/
def council_debate (gpt4 claude gemini : Except String String) :
    Except String CouncilOutput :=
  let responses :=
    (match gpt4 with | .ok c => [("gpt4", c)] | .error _ => []) ++
    (match claude with | .ok c => [("claude", c)] | .error _ => []) ++
    (match gemini with | .ok c => [("gemini", c)] | .error _ => [])
  let votes :=
    (match gpt4 with
      | .ok _ => [("gpt4", (⟨some "HIGH", some (9/10), some "GPT-4o"⟩ : Vote))]
      | .error _ => []) ++
    (match claude with
      | .ok _ => [("claude", (⟨some "HIGH", some (92/100), some "Claude Sonnet 4"⟩ : Vote))]
      | .error _ => []) ++
    (match gemini with
      | .ok _ => [("gemini", (⟨some "HIGH", some (88/100), some "Gemini 2.0 Flash"⟩ : Vote))]
      | .error _ => [])
  let failed_models :=
    (match gpt4 with | .ok _ => [] | .error _ => ["GPT-4o"]) ++
    (match claude with | .ok _ => [] | .error _ => ["Claude"]) ++
    (match gemini with | .ok _ => [] | .error _ => ["Gemini"])
  if responses = [] then
    .error "All LLM models failed. Cannot provide consultation."
  else
    .ok ⟨responses, votes, failed_models⟩

/-- The `add_edge` calls of `MedicalCouncil._build_graph`
(src/council.py lines 54-81). -/
def GRAPH_EDGES : List (String × String) :=
  [("orchestrator", "retrieve_knowledge"), ("fast_path", "synthesize"),
   ("visual_path", "synthesize"), ("council_debate", "synthesize"),
   ("synthesize", "END")]

/-- C2: if all three expert invocations fail, `council_debate` raises a
terminal failure; if at least one succeeds, it returns a non-empty partial
response set together with the failure records of exactly the experts that
failed, and the graph sends `council_debate`'s output on to `synthesize`. -/
theorem c2_expert_pool_failure_policy :
    (∀ e1 e2 e3 : String,
      council_debate (.error e1) (.error e2) (.error e3) =
        .error "All LLM models failed. Cannot provide consultation.")
    ∧ (∀ gpt4 claude gemini : Except String String,
        (gpt4.isOk = true ∨ claude.isOk = true ∨ gemini.isOk = true) →
        ∃ out : CouncilOutput,
          council_debate gpt4 claude gemini = .ok out
          ∧ out.responses ≠ []
          ∧ out.failed_models =
              (if gpt4.isOk = true then [] else ["GPT-4o"]) ++
              (if claude.isOk = true then [] else ["Claude"]) ++
              (if gemini.isOk = true then [] else ["Gemini"])
          ∧ out.responses.length + out.failed_models.length = 3)
    ∧ GRAPH_EDGES.lookup "council_debate" = some "synthesize" := by
  refine ⟨?_, ?_, by decide⟩
  · intro e1 e2 e3; rfl
  · intro gpt4 claude gemini h
    cases gpt4 <;> cases claude <;> cases gemini <;>
      first
        | exact ⟨_, rfl, by simp, by simp [Except.isOk, Except.toBool], by simp⟩
        | simp [Except.isOk, Except.toBool] at h

/-- C2 witness: with only the middle expert succeeding, the executor returns
that single response and records the other two as failed. -/
theorem c2_witness :
    ∃ out : CouncilOutput,
      council_debate (Except.error "quota") (Except.ok "Likely angina. HIGH. 0.9")
        (Except.error "rate limit") = .ok out
      ∧ out.responses ≠ []
      ∧ out.failed_models = ["GPT-4o", "Gemini"] := by
  obtain ⟨out, h1, h2, h3, _⟩ :=
    c2_expert_pool_failure_policy.2.1 (Except.error "quota")
      (Except.ok "Likely angina. HIGH. 0.9") (Except.error "rate limit")
      (Or.inr (Or.inl rfl))
  exact ⟨out, h1, h2, by rw [h3]; rfl⟩

/-! ### Performance Monitor (src/performance_monitoring.py) -/

/-- `PerformanceThreshold` (src/performance_monitoring.py lines 7-13). -/
structure PerformanceThreshold where
  metric_name : String
  max_value : Option ℚ
  min_value : Option ℚ
  warning_level : ℚ
deriving DecidableEq

/-- `PerformanceMonitor.THRESHOLDS` (src/performance_monitoring.py
lines 20-46). -/
def THRESHOLDS : List (String × PerformanceThreshold) :=
  [("response_latency", ⟨"response_latency", some 15, none, 8/10⟩),
   ("word_count", ⟨"word_count", some 30, none, 9/10⟩),
   ("confidence_score", ⟨"confidence_score", none, some (7/10), 9/10⟩),
   ("hallucination_score", ⟨"hallucination_score", some (3/10), none, 7/10⟩),
   ("council_consensus", ⟨"council_consensus", none, some (66/100), 9/10⟩)]

/-- The result dict of `check_threshold`; the human-readable `message`
f-string and the threshold echo are not modelled (no claim concerns them). -/
structure CheckResult where
  metric : String
  value : ℚ
  status : String
  severity : Option String
deriving DecidableEq

/-- The sequential status computation of `check_threshold`
(src/performance_monitoring.py lines 70-96): `status`/`severity` start as
`"ok"`/`None`, the max-bound check may overwrite them, then the min-bound
check may overwrite them again. -/
def checkStatus (threshold : PerformanceThreshold) (value : ℚ) :
    String × Option String :=
  match threshold.min_value with
  | some mn =>
    if value < mn then ("critical", some "error")
    else if value < mn / threshold.warning_level then ("warning", some "warning")
    else
      match threshold.max_value with
      | some mx =>
        if value > mx then ("critical", some "error")
        else if value > mx * threshold.warning_level then ("warning", some "warning")
        else ("ok", none)
      | none => ("ok", none)
  | none =>
    match threshold.max_value with
    | some mx =>
      if value > mx then ("critical", some "error")
      else if value > mx * threshold.warning_level then ("warning", some "warning")
      else ("ok", none)
    | none => ("ok", none)

/-- `PerformanceMonitor.check_threshold` (src/performance_monitoring.py
lines 48-108). -/
def check_threshold (metric_name : String) (value : ℚ) : CheckResult :=
  match THRESHOLDS.lookup metric_name with
  | none => ⟨metric_name, value, "unknown", none⟩
  | some threshold =>
    ⟨metric_name, value, (checkStatus threshold value).1, (checkStatus threshold value).2⟩

/-- The spec's classification, worded independently of the code: beyond the
hard threshold is critical; beyond the warning fraction but within the hard
threshold is warning; otherwise ok. -/
def beyondHard (t : PerformanceThreshold) (v : ℚ) : Bool :=
  (match t.max_value with | some mx => decide (v > mx) | none => false) ||
  (match t.min_value with | some mn => decide (v < mn) | none => false)

def beyondWarning (t : PerformanceThreshold) (v : ℚ) : Bool :=
  (match t.max_value with | some mx => decide (v > mx * t.warning_level) | none => false) ||
  (match t.min_value with | some mn => decide (v < mn / t.warning_level) | none => false)

def specStatus (t : PerformanceThreshold) (v : ℚ) : String :=
  if beyondHard t v then "critical"
  else if beyondWarning t v then "warning"
  else "ok"

theorem lookup_mem {α β : Type} [BEq α] [LawfulBEq α] {a : α} {b : β} :
    ∀ {l : List (α × β)}, l.lookup a = some b → (a, b) ∈ l := by
  intro l
  induction l with
  | nil => intro h; cases h
  | cons e es ih =>
    intro h
    rw [List.lookup] at h
    rcases hbeq : a == e.1 with _ | _
    · rw [hbeq] at h
      exact List.mem_cons.2 (Or.inr (ih h))
    · rw [hbeq] at h
      have ha : a = e.1 := eq_of_beq hbeq
      have hb : e.2 = b := by cases h; rfl
      rw [ha, ← hb]
      exact List.mem_cons.2 (Or.inl rfl)

theorem checkStatus_eq_spec (t : PerformanceThreshold) (v : ℚ)
    (hone : t.max_value = none ∨ t.min_value = none) :
    (checkStatus t v).1 = specStatus t v := by
  obtain ⟨nm, mx, mn, wl⟩ := t
  rcases hone with h | h <;> simp only at h <;> subst h
  · cases mn with
    | none => rfl
    | some m =>
      by_cases h1 : v < m
      · simp [checkStatus, specStatus, beyondHard, h1]
      · by_cases h2 : v < m / wl
        · simp [checkStatus, specStatus, beyondHard, beyondWarning, h1, h2]
        · simp [checkStatus, specStatus, beyondHard, beyondWarning, h1, h2]
  · cases mx with
    | none => rfl
    | some m =>
      by_cases h1 : v > m
      · simp [checkStatus, specStatus, beyondHard, h1]
      · by_cases h2 : v > m * wl
        · simp [checkStatus, specStatus, beyondHard, beyondWarning, h1, h2]
        · simp [checkStatus, specStatus, beyondHard, beyondWarning, h1, h2]

theorem THRESHOLDS_one_sided :
    ∀ p ∈ THRESHOLDS, p.2.max_value = none ∨ p.2.min_value = none := by
  decide

/-- C8: for every known metric the Performance Monitor classifies a value as
`critical` beyond the hard threshold, `warning` beyond the warning fraction
but within the hard threshold, and `ok` otherwise, while unknown metric names
get status `unknown`; in particular `confidence_score` = 0.6 against
{min = 0.7, warning_level = 0.9} is `critical`, 0.75 is `warning` and 0.95 is
`ok`. -/
theorem c8_threshold_classification :
    (∀ (metric_name : String) (value : ℚ),
      match THRESHOLDS.lookup metric_name with
      | none => (check_threshold metric_name value).status = "unknown"
      | some threshold =>
          (check_threshold metric_name value).status = specStatus threshold value)
    ∧ (check_threshold "confidence_score" (6/10)).status = "critical"
    ∧ (check_threshold "confidence_score" (75/100)).status = "warning"
    ∧ (check_threshold "confidence_score" (95/100)).status = "ok"
    ∧ (check_threshold "accuracy" (1/2)).status = "unknown" := by
  have hlk : THRESHOLDS.lookup "confidence_score" =
      some ⟨"confidence_score", none, some (7/10), 9/10⟩ := rfl
  refine ⟨?_,
    by rw [check_threshold, hlk]; simp only [checkStatus]; norm_num,
    by rw [check_threshold, hlk]; simp only [checkStatus]; norm_num,
    by rw [check_threshold, hlk]; simp only [checkStatus]; norm_num,
    rfl⟩
  intro metric_name value
  cases hlk : THRESHOLDS.lookup metric_name with
  | none => simp [check_threshold, hlk]
  | some t =>
    have hone := THRESHOLDS_one_sided (metric_name, t) (lookup_mem hlk)
    simp only [check_threshold, hlk]
    exact checkStatus_eq_spec t value hone

/-! `PerformanceMonitor.check_all_metrics` (src/performance_monitoring.py
lines 110-138). -/

structure AllMetricsResult where
  checks : List CheckResult
  critical_count : Nat
  warning_count : Nat
  all_ok : Bool
deriving DecidableEq

/-- The `for metric_name, value in metrics.items()` loop of
`check_all_metrics`. -/
def metricsLoop : List (String × ℚ) → AllMetricsResult → AllMetricsResult
  | [], acc => acc
  | (name, value) :: rest, acc =>
    metricsLoop rest
      { checks := acc.checks ++ [check_threshold name value],
        critical_count :=
          if (check_threshold name value).status = "critical" then
            acc.critical_count + 1
          else acc.critical_count,
        warning_count :=
          if (check_threshold name value).status = "critical" then acc.warning_count
          else if (check_threshold name value).status = "warning" then
            acc.warning_count + 1
          else acc.warning_count,
        all_ok :=
          if (check_threshold name value).status = "critical" then false
          else acc.all_ok }

def check_all_metrics (metrics : List (String × ℚ)) : AllMetricsResult :=
  metricsLoop metrics ⟨[], 0, 0, true⟩

theorem metricsLoop_spec (l : List (String × ℚ)) (acc : AllMetricsResult) :
    (metricsLoop l acc).checks =
      acc.checks ++ l.map (fun m => check_threshold m.1 m.2)
    ∧ (metricsLoop l acc).critical_count = acc.critical_count +
        (l.map (fun m => check_threshold m.1 m.2)).countP
          (fun c => decide (c.status = "critical"))
    ∧ (metricsLoop l acc).warning_count = acc.warning_count +
        (l.map (fun m => check_threshold m.1 m.2)).countP
          (fun c => decide (c.status = "warning"))
    ∧ (metricsLoop l acc).all_ok = (acc.all_ok &&
        (l.map (fun m => check_threshold m.1 m.2)).all
          (fun c => ! decide (c.status = "critical"))) := by
  induction l generalizing acc with
  | nil => simp [metricsLoop]
  | cons m rest ih =>
    obtain ⟨name, value⟩ := m
    rw [metricsLoop]
    have h := ih
      { checks := acc.checks ++ [check_threshold name value],
        critical_count :=
          if (check_threshold name value).status = "critical" then
            acc.critical_count + 1
          else acc.critical_count,
        warning_count :=
          if (check_threshold name value).status = "critical" then acc.warning_count
          else if (check_threshold name value).status = "warning" then
            acc.warning_count + 1
          else acc.warning_count,
        all_ok :=
          if (check_threshold name value).status = "critical" then false
          else acc.all_ok }
    refine ⟨?_, ?_, ?_, ?_⟩
    · rw [h.1]; simp
    · rw [h.2.1]
      simp only [List.map_cons, List.countP_cons]
      by_cases hc : (check_threshold name value).status = "critical"
      · simp [hc]; omega
      · simp [hc]
    · rw [h.2.2.1]
      simp only [List.map_cons, List.countP_cons]
      by_cases hc : (check_threshold name value).status = "critical"
      · have hw : ¬ (check_threshold name value).status = "warning" := by
          rw [hc]; decide
        simp [hc, hw]
      · by_cases hw : (check_threshold name value).status = "warning"
        · simp [hc, hw]; omega
        · simp [hc, hw]
    · rw [h.2.2.2]
      simp only [List.map_cons, List.all_cons]
      by_cases hc : (check_threshold name value).status = "critical"
      · simp [hc]
      · simp [hc, Bool.and_assoc, Bool.and_comm]

/-- C10: `check_all_metrics` reports `all_ok = true` exactly when no
individual check has status `critical` (warnings and unknowns do not affect
it), `critical_count` and `warning_count` count the checks with those
statuses, and the checks list is the per-metric threshold check of every
entry of the metrics map. -/
theorem c10_check_all_metrics :
    ∀ metrics : List (String × ℚ),
      ((check_all_metrics metrics).all_ok = true ↔
        (check_all_metrics metrics).checks.countP
          (fun c => decide (c.status = "critical")) = 0)
      ∧ (check_all_metrics metrics).critical_count =
          (check_all_metrics metrics).checks.countP
            (fun c => decide (c.status = "critical"))
      ∧ (check_all_metrics metrics).warning_count =
          (check_all_metrics metrics).checks.countP
            (fun c => decide (c.status = "warning"))
      ∧ (check_all_metrics metrics).checks =
          metrics.map (fun m => check_threshold m.1 m.2) := by
  intro metrics
  have h := metricsLoop_spec metrics ⟨[], 0, 0, true⟩
  rw [check_all_metrics]
  refine ⟨?_, ?_, ?_, ?_⟩
  · rw [h.1, h.2.2.2]
    simp only [List.nil_append, Bool.true_and, List.all_eq_true,
      List.countP_eq_zero, Bool.not_eq_true', decide_eq_false_iff_not,
      decide_eq_true_eq]
  · rw [h.2.1, h.1]; simp
  · rw [h.2.2.1, h.1]; simp
  · rw [h.1]; simp

/-! ### Variant Assigner (src/ab_testing.py, `ABTestConfig.get_variant`,
lines 38-65)

Python's builtin `hash` on strings is a process-level primitive; it is
modelled as an explicit integer-valued hash-function parameter.  The variant
percentages are exact decimals whose `int(percentage * 100)` values coincide
between IEEE-754 and rational arithmetic (0.70*100 = 70.0, 0.15*100 = 15.0,
0.50*100 = 50.0, 0.25*100 = 25.0), so percentages are embedded as
rationals. -/

structure Experiment where
  enabled : Bool
  variants : List (String × ℚ)
deriving DecidableEq

/-- `ABTestConfig.ACTIVE_EXPERIMENTS` (src/ab_testing.py lines 19-36). -/
def ACTIVE_EXPERIMENTS : List (String × Experiment) :=
  [("prompt_style",
    ⟨true, [("control", 7/10), ("detailed", 15/100), ("empathetic", 15/100)]⟩),
   ("council_threshold",
    ⟨false, [("control", 1/2), ("sensitive", 1/4), ("aggressive", 1/4)]⟩)]

/-- Python `int()`: truncation toward zero. -/
def pyInt (q : ℚ) : Int := if 0 ≤ q then ⌊q⌋ else -⌊-q⌋

/-- The `for variant, percentage in experiment["variants"].items()` loop of
`get_variant`: accumulate `cumulative += int(percentage * 100)` and return
the first variant with `hash_value < cumulative`; fall through to
`"control"`. -/
def assignLoop (hashValue : Int) : Int → List (String × ℚ) → String
  | _, [] => "control"
  | cumulative, (variant, percentage) :: rest =>
    if hashValue < cumulative + pyInt (percentage * 100) then variant
    else assignLoop hashValue (cumulative + pyInt (percentage * 100)) rest

/-- `ABTestConfig.get_variant` (src/ab_testing.py lines 38-65), with the
process's string hash passed explicitly.  Python's `%` on a positive modulus
yields a value in `[0, 100)`, as does `Int.emod`. -/
def get_variant (pyHash : String → Int) (experiment_name patient_id : String) :
    String :=
  match ACTIVE_EXPERIMENTS.lookup experiment_name with
  | none => "control"
  | some experiment =>
    if ¬ experiment.enabled = true then "control"
    else assignLoop (pyHash (experiment_name ++ ":" ++ patient_id) % 100) 0
      experiment.variants

/-- C7: the Variant Assigner's output is a pure function of the hash of
`experiment_name:subject_id` (hence deterministic across repeated calls with
the same process hash), it returns `control` for disabled and unknown
experiments, and for the enabled `prompt_style` experiment it maps the hash
modulo 100 through the cumulative percentage buckets 70 / 85 / 100. -/
theorem c7_variant_assigner :
    (∀ (h₁ h₂ : String → Int) (experiment_name patient_id : String),
      h₁ (experiment_name ++ ":" ++ patient_id) =
        h₂ (experiment_name ++ ":" ++ patient_id) →
      get_variant h₁ experiment_name patient_id =
        get_variant h₂ experiment_name patient_id)
    ∧ (∀ (h : String → Int) (experiment_name patient_id : String),
        (ACTIVE_EXPERIMENTS.lookup experiment_name).isNone = true →
        get_variant h experiment_name patient_id = "control")
    ∧ (∀ (h : String → Int) (patient_id : String),
        get_variant h "council_threshold" patient_id = "control")
    ∧ (∀ (h : String → Int) (patient_id : String),
        get_variant h "prompt_style" patient_id =
          (if h ("prompt_style" ++ ":" ++ patient_id) % 100 < 70 then "control"
           else if h ("prompt_style" ++ ":" ++ patient_id) % 100 < 85 then "detailed"
           else "empathetic")) := by
  refine ⟨?_, ?_, ?_, ?_⟩
  · intro h₁ h₂ en pid hEq
    rw [get_variant, get_variant, hEq]
  · intro h en pid hn
    rw [get_variant]
    cases hlk : ACTIVE_EXPERIMENTS.lookup en with
    | none => rfl
    | some e => rw [hlk] at hn; simp at hn
  · intro h pid
    rfl
  · intro h pid
    have h0 : 0 ≤ h ("prompt_style" ++ ":" ++ pid) % 100 :=
      Int.emod_nonneg _ (by norm_num)
    have h100 : h ("prompt_style" ++ ":" ++ pid) % 100 < 100 :=
      Int.emod_lt_of_pos _ (by norm_num)
    have hstep : get_variant h "prompt_style" pid =
        assignLoop (h ("prompt_style" ++ ":" ++ pid) % 100) 0
          [("control", 7/10), ("detailed", 15/100), ("empathetic", 15/100)] := rfl
    rw [hstep]
    have h70 : pyInt (7/10 * 100) = 70 := by
      rw [pyInt, if_pos (by norm_num)]
      norm_num [Int.floor_eq_iff]
    have h15 : pyInt (15/100 * 100) = 15 := by
      rw [pyInt, if_pos (by norm_num)]
      norm_num [Int.floor_eq_iff]
    simp only [assignLoop, h70, h15]
    split_ifs <;> first | rfl | omega

/-- C7 witness: an unknown experiment name yields `control`, and with a hash
function sending everything to 77 the `prompt_style` experiment assigns the
`detailed` bucket. -/
theorem c7_witness :
    get_variant (fun _ => 5) "quux" "patient-1" = "control"
    ∧ get_variant (fun _ => 77) "prompt_style" "patient-1" = "detailed"
    ∧ get_variant (fun _ => 3) "prompt_style" "patient-1" =
        get_variant (fun _ => 2 + 1) "prompt_style" "patient-1" := by
  refine ⟨?_, ?_, ?_⟩
  · exact c7_variant_assigner.2.1 (fun _ => 5) "quux" "patient-1" rfl
  · rw [c7_variant_assigner.2.2.2 (fun _ => 77) "patient-1"]
    norm_num
  · exact c7_variant_assigner.1 (fun _ => 3) (fun _ => 2 + 1) "prompt_style"
      "patient-1" rfl

/-- C4: the Router assigns lane `council` if and only if `has_image` is true or
the lowercased text contains a configured high-stakes keyword, and otherwise
assigns `fast`; moreover empty text with an image routes to council,
"mild headache" without an image routes to fast, and "I have chest pain"
without an image routes to council. -/
theorem c4_router_council_iff :
    (∀ (text : PyStr) (hasImage : Bool),
      (orchestratorRoute text hasImage = "council" ↔
        (hasImage = true ∨ isHighStakes text = true)) ∧
      (orchestratorRoute text hasImage = "fast" ↔
        ¬ (hasImage = true ∨ isHighStakes text = true)))
    ∧ orchestratorRoute (str "") true = "council"
    ∧ orchestratorRoute (str "mild headache") false = "fast"
    ∧ orchestratorRoute (str "I have chest pain") false = "council" := by
  refine ⟨?_, by decide, by decide, by decide⟩
  intro text hasImage
  unfold orchestratorRoute
  rcases h : (hasImage || isHighStakes text) with _ | _
  · simp_all
  · simp_all

/-- C5 counterexample: the canonical image-only input without a
council-triggering signal (empty text, image present) routes to `council`,
not to the `visual` lane. -/
theorem c5_router_never_visual :
    orchestratorRoute (str "") true = "council"
    ∧ orchestratorRoute (str "") true ≠ "visual" := by
  refine ⟨by decide, by decide⟩

/-- C5 amended: the graph's dispatch does contain a visual lane
(`route_decision` maps route `visual` to the `visual_path` node), but the
Router never selects it: an image-only input without a council-triggering
signal routes to `council`, and every input routes to `council` or `fast`. -/
theorem c5_visual_lane_exists_but_unreachable :
    routeDecision "visual" = "visual_path"
    ∧ orchestratorRoute (str "") true = "council"
    ∧ (∀ (text : PyStr) (hasImage : Bool),
        orchestratorRoute text hasImage = "council" ∨
        orchestratorRoute text hasImage = "fast") := by
  refine ⟨by decide, by decide, ?_⟩
  intro text hasImage
  unfold orchestratorRoute
  split_ifs
  · exact Or.inl rfl
  · exact Or.inr rfl

end Pulsepoint
